import Mathlib

/-!
Shallow embedding of the Ethereal `buildscripts` helper scripts
(`app.py`, `lib.py`, `genpc.py`, `mkinitrd.py`).

Python strings are modelled as Lean `String` (a list of characters);
the character-level helpers below reproduce the exact Python string
primitives that the scripts use (`str.replace(" = ", "=")`,
`str.split(c)` for a one-character separator, `str.replace(" ", "")`,
`str.startswith`, `str.isdigit` on ASCII text, `str.strip`,
`s[-1:]`, `s[3:]`, `os.path.dirname`).  Fallible Python code
(exceptions) is modelled with `Except`; a `subprocess.run` /
`subprocess.check_output` invocation of the external `pkg-config`
tool is modelled by passing the tool's observable outcome as an
explicit parameter (a `ProcResult`, or an oracle
`String → Option String` mapping the queried argument to its decoded
standard output, `none` meaning a non-zero exit).  Filesystem state
is modelled as the list of existing paths.
-/

/-- Python `s.replace(" = ", "=")`: replace every (leftmost,
non-overlapping) occurrence of the three-character pattern
space-equals-space by a single `'='`. -/
def replaceSpEq : List Char → List Char
  | [] => []
  | [c] => [c]
  | [c₁, c₂] => [c₁, c₂]
  | c₁ :: c₂ :: c₃ :: rest =>
    if c₁ = ' ' ∧ c₂ = '=' ∧ c₃ = ' ' then '=' :: replaceSpEq rest
    else c₁ :: replaceSpEq (c₂ :: c₃ :: rest)

/-- Python `s.split(sep)` for a one-character separator `sep`:
always returns at least one (possibly empty) part. -/
def splitOnChar (sep : Char) : List Char → List (List Char)
  | [] => [[]]
  | c :: rest =>
    if c = sep then [] :: splitOnChar sep rest
    else
      match splitOnChar sep rest with
      | [] => [[c]]
      | h :: t => (c :: h) :: t

/-- Python `line.startswith(key)`. -/
def pyStartsWith (line key : String) : Bool :=
  key.data.isPrefixOf line.data

/-- Python `s.replace(" ", "")`: remove every space character. -/
def pyRemoveSpaces (s : String) : String :=
  ⟨s.data.filter (fun c => c ≠ ' ')⟩

/-- Python `s.replace("\x22", "")`: remove every double-quote character. -/
def pyRemoveQuotes (s : String) : String :=
  ⟨s.data.filter (fun c => c ≠ '"')⟩

/-- Python `s.split(",")`, as a list of strings. -/
def pySplitComma (s : String) : List String :=
  (splitOnChar ',' s.data).map (fun l => ⟨l⟩)

/-- Python `s.isdigit()` for ASCII text: non-empty and every character
a decimal digit `'0'`-`'9'` (on ASCII text this coincides with "parseable
as a non-negative integer"). -/
def pyIsDigitL (l : List Char) : Bool :=
  !l.isEmpty && l.all (fun c => c.isDigit)

/-- Python `s[-1:]`: the last character as a one-character string,
or the empty string when `s` is empty. -/
def pyTakeLast1 (s : String) : String :=
  match s.data.getLast? with
  | some c => ⟨[c]⟩
  | none => ""

/-- Python `s.strip()`: drop whitespace characters from both ends. -/
def pyStrip (s : String) : String :=
  ⟨((s.data.dropWhile Char.isWhitespace).reverse.dropWhile Char.isWhitespace).reverse⟩

/-- Substring test (Python `pat in s`) on character lists. -/
def listIsInfixOf : List Char → List Char → Bool
  | pat, [] => pat.isEmpty
  | pat, c :: rest => pat.isPrefixOf (c :: rest) || listIsInfixOf pat rest

/-- Python `pat in s` (substring containment). -/
def pyContains (s pat : String) : Bool :=
  listIsInfixOf pat.data s.data

/-- Observable outcome of one `subprocess.run(["pkg-config", ...])`
invocation: the exit status and the decoded standard-output stream
(`none` models Python's `o.stdout is None`, i.e. a missing stream). -/
structure ProcResult where
  returncode : Int
  stdout : Option String

/-! ## app.py -/

/-- The `App` class of `app.py`. -/
structure App where
  name : String
  depends : List String
  install_dir : String
  symlinks : List String
  additional_targets : String
  cflags : String
  ldflags : String

/-- `app.py` `get_line_or_replace`: scan the lines for the first one
that starts with `key`; on a hit, collapse `" = "` to `"="`, split on
every `"="` and return element `[1]` (raising `IndexError` when the
line contains no `"="` at all); on a miss, raise when `error` is set,
otherwise return the replacement value. -/
def get_line_or_replace (lines : List String) (key rep_value : String)
    (error : Bool) : Except String String :=
  match lines.find? (fun line => pyStartsWith line key) with
  | some line =>
    match (splitOnChar '=' (replaceSpEq line.data)).get? 1 with
    | some a1 => .ok ⟨a1⟩
    | none => .error "IndexError"
  | none =>
    if error then .error (key ++ " is required in app.conf but was not found")
    else .ok rep_value

/-- `app.py` `process_file`, over the stripped lines of the descriptor
file.  The `os.path.exists(os.path.join(SYSROOT, install_dir))` check is
modelled by the oracle `sysroot_has`. -/
def process_file (lines : List String) (sysroot_has : String → Bool) :
    Except String App := do
  let name ← get_line_or_replace lines "NAME" "" true
  let idir0 ← get_line_or_replace lines "INSTALL_DIR" "/usr/bin/" false
  let install_dir := if pyTakeLast1 idir0 ≠ "/" then idir0 ++ "/" else idir0
  if !sysroot_has install_dir then
    throw (install_dir ++ " does not exist (INSTALL_DIR)")
  let depends0 ← get_line_or_replace lines "DEPENDS" "" false
  let additional_targets ← get_line_or_replace lines "ADDITIONAL_TARGETS" "" false
  let symlink0 ← get_line_or_replace lines "SYMLINKS" "" false
  let cflags ← get_line_or_replace lines "CFLAGS" "" false
  let ldflags ← get_line_or_replace lines "LDFLAGS" "" false
  let depends := if depends0 ≠ "" then pySplitComma (pyRemoveSpaces depends0) else []
  let symlinks := if symlink0 ≠ "" then pySplitComma (pyRemoveSpaces symlink0) else []
  return ⟨name, depends, install_dir, symlinks, additional_targets, cflags, ldflags⟩

/-- The dependency-joining loop shared by `get_cflags` / `get_libs` /
`collect_cflags`: `r = ""; for i in deps: r = r + " " + i`. -/
def joinDeps (deps : List String) : String :=
  deps.foldl (fun r i => r ++ " " ++ i) ""

/-- `app.py` `get_cflags`: join the dependency names; an empty join
short-circuits to `""` without running the tool; a non-zero exit raises;
a missing output stream yields `""`; otherwise the result is the app's
local cflags, a space, and the decoded stream.  `o` is the outcome of
the single `subprocess.run(["pkg-config", "--cflags", r])` call. -/
def get_cflags (a : App) (o : ProcResult) : Except String String :=
  let r := joinDeps a.depends
  if r = "" then .ok ""
  else if o.returncode ≠ 0 then .error "returncode != 0"
  else
    match o.stdout with
    | none => .ok ""
    | some s => .ok (a.cflags ++ " " ++ s)

/-! ## lib.py -/

/-- The `Library` class of `lib.py`. -/
structure Library where
  name : String
  desc : String
  version : String
  deps : List String
  deps_private : List String
  cflags : String
  shared : Bool

/-- `lib.py` `preprocess`: collapse `" = "` to `"="`, split on every
`"="`, take element `[1]` (`IndexError` when absent), then enforce the
`no_spaces` / `quotes` validation modes. -/
def preprocess (line : String) (no_spaces quotes : Bool) : Except String String :=
  match (splitOnChar '=' (replaceSpEq line.data)).get? 1 with
  | none => .error "IndexError"
  | some v =>
    if no_spaces && v.contains ' ' then
      .error ("Spaces not allowed for this element: " ++ line)
    else if !quotes && v.contains '"' then
      .error ("Quotes not allowed for this element: " ++ line)
    else .ok ⟨v⟩

/-- `lib.py` `look_or_substitute`: first line starting with `key` is
preprocessed; otherwise the substitute is returned, `none` (Python
`None`) raising instead. -/
def look_or_substitute (lines : List String) (key : String) (sub : Option String)
    (no_spaces quotes : Bool) : Except String String :=
  match lines.find? (fun line => pyStartsWith line key) with
  | some line => preprocess line no_spaces quotes
  | none =>
    match sub with
    | none => .error (key ++ " cannot be empty")
    | some s => .ok s

/-- The `v.split(".")` components of a VERSION value, as used by the
two `assert` statements of `create_library_from_info_file`. -/
def version_parts (v : String) : List (List Char) :=
  splitOnChar '.' v.data

/-- `lib.py` `create_library_from_info_file`, over the stripped lines of
the descriptor file.  Faithful details: the `lib`-prefix-stripping
`for` loops only rebind their loop variable and are no-ops, so they are
omitted; when `DEPENDS_ON` (resp. `DEPENDS_ON_PRIV`) is empty the Python
variable keeps the empty *string*, which every downstream consumer only
iterates over, so it is modelled as the empty list; when
`DEPENDS_ON_PRIV` is non-empty the Python code operates on the variable
`d` (not `dp`): if `d` was rebound to a list this raises
`AttributeError`, and otherwise (`d == ""`) it computes `"".split(",")`,
i.e. `[""]`. -/
def create_library_from_info_file (lines : List String) : Except String Library :=
  match look_or_substitute lines "NAME" none true false with
  | .error e => .error e
  | .ok n0 =>
  let n := if pyStartsWith n0 "lib" then n0 else "lib" ++ n0
  match look_or_substitute lines "VERSION" (some "1.0.0") true false with
  | .error e => .error e
  | .ok v =>
  match look_or_substitute lines "DESCRIPTION" (some "") false true with
  | .error e => .error e
  | .ok desc =>
  match look_or_substitute lines "DEPENDS_ON" (some "") false false with
  | .error e => .error e
  | .ok d0 =>
  if (version_parts v).length ≠ 3 then
    .error "AssertionError: VERSION must have the format X.X.X"
  else if ((version_parts v).filter pyIsDigitL).length ≠ 3 then
    .error "AssertionError: All components of VERSION must be number"
  else
  let d := if d0 ≠ "" then pySplitComma (pyRemoveSpaces d0) else []
  match look_or_substitute lines "DEPENDS_ON_PRIV" (some "") false false with
  | .error e => .error e
  | .ok dp0 =>
  match (if dp0 ≠ "" then
          (if d0 ≠ "" then
            Except.error "AttributeError: list object has no attribute replace"
          else Except.ok (pySplitComma d0))
        else Except.ok ([] : List String)) with
  | .error e => .error e
  | .ok dp =>
  match look_or_substitute lines "CFLAGS" (some "") false false with
  | .error e => .error e
  | .ok cflags =>
  let shared := (lines.filter (fun line => pyStartsWith line "NO_SHARED")).length == 0
  .ok ⟨n, desc, v, d, dp, cflags, shared⟩

/-- `lib.py` `collect_cflags`: the local accumulator starts as `""` and
the library's own declared cflags are never consulted; the result on a
present stream is a single space followed by the decoded stream. -/
def collect_cflags (lib : Library) (o : ProcResult) : Except String String :=
  let cflags := ""
  let r := joinDeps lib.deps
  if r = "" then .ok ""
  else if o.returncode ≠ 0 then .error "returncode != 0"
  else
    match o.stdout with
    | none => .ok ""
    | some s => .ok (cflags ++ " " ++ s)

/-! ## genpc.py -/

/-- The `Libs:` dependency loop of `genpc.py`: for each public
dependency name `i`, in order, append
`subprocess.check_output(["pkg-config", "--libs", i]).strip() + " "`;
the first failing invocation (oracle `none`) raises and aborts the
whole emission. -/
def resolveDeps : List String → (String → Option String) → Option String
  | [], _ => some ""
  | i :: rest, pc =>
    match pc i with
    | none => none
    | some out =>
      match resolveDeps rest pc with
      | none => none
      | some tail => some (pyStrip out ++ " " ++ tail)

/-- The `Libs.private:` loop of `genpc.py`: `-l` plus each private
dependency name, each followed by a space; no external resolution. -/
def privLibs : List String → String
  | [] => ""
  | i :: rest => "-l" ++ i ++ " " ++ privLibs rest

/-- The `data` string assembled by the `genpc.py` module body, with
`pre` the value of `$PREFIX` and `pc` the external-tool oracle; `none`
when some public dependency fails to resolve (the raised
`CalledProcessError` aborts before `f.write`). -/
def genpc_render (l : Library) (pre : String) (pc : String → Option String) :
    Option String :=
  let n := l.name.drop 3
  let header :=
    "prefix=" ++ pre ++ "\n" ++
    "exec_prefix=$\x7bprefix\x7d\n" ++
    "libdir=" ++ pre ++ "/lib\n" ++
    "includedir=" ++ pre ++ "/include\n\n" ++
    "Name: " ++ n ++ "\n"
  let header :=
    if l.desc ≠ "" then header ++ "Description: " ++ pyRemoveQuotes l.desc ++ "\n"
    else header
  let header :=
    header ++ "Requires:\nRequires.private:\n" ++
    "Version: " ++ l.version ++ "\n" ++
    "Libs: -L$\x7blibdir\x7d -l" ++ n ++ " "
  match resolveDeps l.deps pc with
  | none => none
  | some flags =>
    some (header ++ flags ++ "\n" ++
      "Libs.private: " ++ privLibs l.deps_private ++ "\n" ++
      "Cflags: -I$\x7bincludedir\x7d " ++ l.cflags ++ "\n")

/-- The content of the destination `.pc` file after one `genpc.py` run,
given its content `prior` before the run.  `open(path, "w+")` truncates
the file *before* any dependency is resolved, so on failure the file is
left empty (the prior content is gone), and only on success is the
rendered data written. -/
def genpc_run (l : Library) (pre : String) (pc : String → Option String)
    (prior : String) : String :=
  let afterOpen := ""
  match genpc_render l pre pc with
  | some data => data
  | none => afterOpen

/-! ## mkinitrd.py -/

/-- A tar archive entry, restricted to the fields `ramdisk_filter`
touches. -/
structure TarInfo where
  name : String
  uid : Nat
  gid : Nat
  mode : Nat

/-- The `mode_overrides` dict of `mkinitrd.py`. -/
def mode_overrides : List (String × Nat) :=
  [("tmp", 0o775), ("var", 0o775)]

/-- `mkinitrd.py` `ramdisk_filter`: force uid/gid to `0` and override
the mode for the entry names listed in `mode_overrides`. -/
def ramdisk_filter (t : TarInfo) : TarInfo :=
  let t := { t with uid := 0, gid := 0 }
  match mode_overrides.lookup t.name with
  | some m => { t with mode := m }
  | none => t

/-! ## Symlink creation (`app.py` `--create-symlinks`) -/

/-- Python `os.path.dirname`. -/
def dirname (s : String) : String :=
  let head := (s.data.reverse.dropWhile (fun c => c ≠ '/')).reverse
  if head.all (fun c => c = '/') then ⟨head⟩
  else ⟨(head.reverse.dropWhile (fun c => c = '/')).reverse⟩

/-- Filesystem errors distinguished by the `try`/`except` in
`app.py`. -/
inductive OSErr where
  | fileExists
  | other
deriving DecidableEq

/-- The body of the `try` block for one symlink entry, over a
filesystem modelled as the list of existing paths (`p` is the full
target path `path + sym`): create the parent directory when absent
(`os.mkdir` on the existing sysroot is modelled as succeeding), then
`os.symlink`, which raises `FileExistsError` when the target path
already exists.  Returns the filesystem as left at the point of the
outcome. -/
def symlink_entry_raw (fs : List String) (p : String) :
    List String × Option OSErr :=
  let dir := dirname p
  let fs1 := if fs.contains dir then fs else dir :: fs
  if fs1.contains p then (fs1, some .fileExists) else (p :: fs1, none)

/-- One iteration of the `--create-symlinks` loop: the `except
FileExistsError: pass` clause turns a `fileExists` outcome into
success, keeping the filesystem as it stood. -/
def symlink_entry (fs : List String) (p : String) : Except OSErr (List String) :=
  match symlink_entry_raw fs p with
  | (s, some .fileExists) => .ok s
  | (_, some e) => .error e
  | (s, none) => .ok s

/-- The whole `--create-symlinks` loop over the descriptor's symlink
list, `path` being `$SYSROOT`. -/
def create_symlinks (fs : List String) (path : String) (syms : List String) :
    Except OSErr (List String) :=
  syms.foldlM (fun st sym => symlink_entry st (path ++ sym)) fs

/-! ## String-machinery lemmas -/

theorem replaceSpEq_cons_ne (c : Char) (l : List Char) (h : c ≠ ' ') :
    replaceSpEq (c :: l) = c :: replaceSpEq l := by
  match l with
  | [] => rfl
  | [c₂] => rfl
  | c₂ :: c₃ :: r =>
    show replaceSpEq (c :: c₂ :: c₃ :: r) = _
    rw [replaceSpEq, if_neg]
    rintro ⟨hc, -⟩
    exact h hc

theorem replaceSpEq_pat (l : List Char) :
    replaceSpEq (' ' :: '=' :: ' ' :: l) = '=' :: replaceSpEq l := by
  rw [replaceSpEq, if_pos ⟨rfl, rfl, rfl⟩]

theorem replaceSpEq_append_no_space (a l : List Char) (h : ∀ c ∈ a, c ≠ ' ') :
    replaceSpEq (a ++ l) = a ++ replaceSpEq l := by
  induction a with
  | nil => rfl
  | cons c a ih =>
    rw [List.cons_append, replaceSpEq_cons_ne c _ (h c (by simp)),
      ih (fun c hc => h c (by simp [hc]))]
    rfl

theorem replaceSpEq_no_space (a : List Char) (h : ∀ c ∈ a, c ≠ ' ') :
    replaceSpEq a = a := by
  have h1 := replaceSpEq_append_no_space a [] h
  have h2 : replaceSpEq [] = [] := rfl
  rw [List.append_nil, h2, List.append_nil] at h1
  exact h1

theorem splitOnChar_ne_nil (sep : Char) (l : List Char) :
    splitOnChar sep l ≠ [] := by
  match l with
  | [] => simp [splitOnChar]
  | c :: rest =>
    rw [splitOnChar]
    split
    · simp
    · split <;> simp

theorem splitOnChar_append_sep (sep : Char) (a l : List Char)
    (h : ∀ c ∈ a, c ≠ sep) :
    splitOnChar sep (a ++ sep :: l) = a :: splitOnChar sep l := by
  induction a with
  | nil => simp [splitOnChar]
  | cons c a ih =>
    rw [List.cons_append, splitOnChar, if_neg (h c (by simp)),
      ih (fun c hc => h c (by simp [hc]))]

theorem splitOnChar_no_sep (sep : Char) (a : List Char) (h : ∀ c ∈ a, c ≠ sep) :
    splitOnChar sep a = [a] := by
  induction a with
  | nil => rfl
  | cons c a ih =>
    rw [splitOnChar, if_neg (h c (by simp)), ih (fun c hc => h c (by simp [hc]))]

theorem isPrefixOf_append_self (a b : List Char) : a.isPrefixOf (a ++ b) = true := by
  induction a with
  | nil => simp [List.isPrefixOf]
  | cons c a ih => simpa [List.isPrefixOf] using ih

theorem pyStartsWith_append (key suffix : String) :
    pyStartsWith (key ++ suffix) key = true := by
  rw [pyStartsWith, String.data_append]
  exact isPrefixOf_append_self _ _

theorem pyTakeLast1_append_slash (s : String) : pyTakeLast1 (s ++ "/") = "/" := by
  rw [pyTakeLast1]
  have : (s ++ "/").data = s.data ++ ['/'] := by rw [String.data_append]
  rw [this, List.getLast?_concat]

/-! ## Claim C8 -/

/-- C8: every entry passed through `ramdisk_filter` comes out with
uid `0` and gid `0` regardless of the input's uid/gid; an entry named
`tmp` or `var` additionally has its mode overridden to `0o775`, and
every other entry keeps its mode unchanged. -/
theorem c8_ramdisk_filter_normalizes (t : TarInfo) :
    ramdisk_filter t =
      ⟨t.name, 0, 0, if t.name = "tmp" ∨ t.name = "var" then 0o775 else t.mode⟩ := by
  unfold ramdisk_filter mode_overrides
  by_cases h1 : t.name = "tmp"
  · simp [List.lookup, h1]
  · by_cases h2 : t.name = "var"
    · simp [List.lookup, h2]
    · have e1 : (t.name == "tmp") = false := beq_eq_false_iff_ne.mpr h1
      have e2 : (t.name == "var") = false := beq_eq_false_iff_ne.mpr h2
      simp [List.lookup, e1, e2, h1, h2]

/-! ## Claim C9 -/

/-- C9: descriptor field lookup matches by line prefix, not by exact
key: any line that merely begins with the requested key string is
accepted as that key's line, and in a file where a `DEPENDS_ON_PRIV`
line precedes every `DEPENDS_ON` line, looking up `DEPENDS_ON` returns
the `DEPENDS_ON_PRIV` line's value. -/
theorem c9_lookup_matches_by_prefix :
    (∀ (key suffix : String) (rest : List String) (sub : Option String)
        (ns q : Bool),
        look_or_substitute ((key ++ suffix) :: rest) key sub ns q =
          preprocess (key ++ suffix) ns q)
    ∧ look_or_substitute ["DEPENDS_ON_PRIV = priv", "DEPENDS_ON = pub"]
        "DEPENDS_ON" (some "") false false = .ok "priv"
    ∧ "priv" ≠ "pub" := by
  refine ⟨?_, rfl, by decide⟩
  intro key suffix rest sub ns q
  have hfind : List.find? (fun line => pyStartsWith line key) ((key ++ suffix) :: rest)
      = some (key ++ suffix) := by
    rw [List.find?_cons_of_pos]
    exact pyStartsWith_append key suffix
  unfold look_or_substitute
  rw [hfind]

/-! ## Claim C3 -/

theorem get_line_or_replace_found (line : String) (rest : List String)
    (key rep : String) (err : Bool) (hstart : pyStartsWith line key = true) :
    get_line_or_replace (line :: rest) key rep err
      = match (splitOnChar '=' (replaceSpEq line.data)).get? 1 with
        | some a1 => .ok ⟨a1⟩
        | none => .error "IndexError" := by
  have hfind : List.find? (fun l => pyStartsWith l key) (line :: rest) = some line := by
    rw [List.find?_cons_of_pos]
    exact hstart
  unfold get_line_or_replace
  rw [hfind]

theorem preprocess_parts (line : String) (ns q : Bool) (parts : List Char)
    (hp : (splitOnChar '=' (replaceSpEq line.data)).get? 1 = some parts) :
    preprocess line ns q =
      (if ns && parts.contains ' ' then
        .error ("Spaces not allowed for this element: " ++ line)
      else if !q && parts.contains '"' then
        .error ("Quotes not allowed for this element: " ++ line)
      else .ok ⟨parts⟩) := by
  unfold preprocess
  rw [hp]

/-- C3 counterexample: on the line `CFLAGS = -DX=1` the parser returns
`-DX`, not the entire text `-DX=1` after the first delimiter that the
claim promises. -/
theorem c3_counterexample_split_truncates :
    get_line_or_replace ["CFLAGS = -DX=1"] "CFLAGS" "" false = .ok "-DX"
    ∧ "-DX" ≠ "-DX=1" :=
  ⟨rfl, by decide⟩

/-- C3 amended: for a descriptor line whose value contains a further
`=`, both parsers (after collapsing each `" = "` to `"="`) split on
every `=` and return only the text between the first and the second
delimiter, discarding everything after the second `=`. -/
theorem c3_amended_value_up_to_second_eq (v2 : String) :
    get_line_or_replace ["CFLAGS = -DX=" ++ v2] "CFLAGS" "" false = .ok "-DX"
    ∧ preprocess ("CFLAGS = -DX=" ++ v2) false false = .ok "-DX" := by
  have hpre : pyStartsWith ("CFLAGS = -DX=" ++ v2) "CFLAGS" = true := by
    rw [pyStartsWith, String.data_append]
    have h : ("CFLAGS = -DX=".data : List Char) ++ v2.data
        = "CFLAGS".data ++ (" = -DX=".data ++ v2.data) := by
      rw [← List.append_assoc]
      rfl
    rw [h]
    exact isPrefixOf_append_self _ _
  have hdata : ("CFLAGS = -DX=" ++ v2).data
      = "CFLAGS".data ++ (' ' :: '=' :: ' ' :: ("-DX".data ++ ('=' :: v2.data))) := by
    rw [String.data_append]
    rfl
  have hrep : replaceSpEq ("CFLAGS = -DX=" ++ v2).data
      = "CFLAGS".data ++ ('=' :: ("-DX".data ++ ('=' :: replaceSpEq v2.data))) := by
    rw [hdata, replaceSpEq_append_no_space _ _ (by decide), replaceSpEq_pat,
      replaceSpEq_append_no_space _ _ (by decide),
      replaceSpEq_cons_ne _ _ (by decide)]
  have hsplit : splitOnChar '=' (replaceSpEq ("CFLAGS = -DX=" ++ v2).data)
      = "CFLAGS".data :: "-DX".data :: splitOnChar '=' (replaceSpEq v2.data) := by
    rw [hrep, splitOnChar_append_sep _ _ _ (by decide),
      splitOnChar_append_sep _ _ _ (by decide)]
  have hp : (splitOnChar '=' (replaceSpEq ("CFLAGS = -DX=" ++ v2).data)).get? 1
      = some "-DX".data := by
    rw [hsplit]
    rfl
  constructor
  · rw [get_line_or_replace_found _ _ _ _ _ hpre, hp]
  · rw [preprocess_parts _ _ _ _ hp]
    rfl

/-! ## Claim C1 -/

theorem joinDeps_ne_empty (deps : List String) (h : deps ≠ []) :
    joinDeps deps ≠ "" := by
  have hlen : ∀ (l : List String) (acc : String),
      acc.length ≤ (List.foldl (fun r i => r ++ " " ++ i) acc l).length := by
    intro l
    induction l with
    | nil => intro acc; exact Nat.le_refl _
    | cons y ys ih =>
      intro acc
      refine Nat.le_trans ?_ (ih (acc ++ " " ++ y))
      rw [String.length_append, String.length_append]
      omega
  match deps with
  | [] => exact absurd rfl h
  | x :: xs =>
    intro heq
    have h1 := hlen xs ("" ++ " " ++ x)
    rw [joinDeps, List.foldl_cons] at heq
    rw [heq] at h1
    have e0 : ("" : String).length = 0 := rfl
    have e1 : (" " : String).length = 1 := rfl
    rw [String.length_append, String.length_append, e0, e1] at h1
    omega

/-- C1 counterexample: an app with local cflags `-DX` and a non-empty
dependency list, when the tool exits `0` with a missing output stream,
resolves to `""` — the local flags are dropped — whereas the claim
promises the local flags with an empty external contribution. -/
theorem c1_counterexample_local_flags_dropped :
    get_cflags ⟨"x", ["liba"], "/usr/bin/", [], "", "-DX", ""⟩ ⟨0, none⟩ = .ok ""
    ∧ "" ≠ "-DX" ++ " " ++ "" :=
  ⟨rfl, by decide⟩

/-- C1 amended: for a non-empty dependency list and tool exit `0`,
`app.py` `get_cflags` returns the local cflags, a space and the decoded
stream when the stream is present, but the empty string (local flags
dropped) when the stream is missing; `lib.py` `collect_cflags` never
includes the descriptor's local cflags: it returns a space followed by
the stream text when present, and the empty string when missing. -/
theorem c1_amended_cflags_resolution (a : App) (lib : Library) (o o' : ProcResult)
    (ha : a.depends ≠ []) (hl : lib.deps ≠ [])
    (hrc : o.returncode = 0) (hrc' : o'.returncode = 0) :
    (∀ s, o.stdout = some s → get_cflags a o = .ok (a.cflags ++ " " ++ s))
    ∧ (o.stdout = none → get_cflags a o = .ok "")
    ∧ (∀ s, o'.stdout = some s → collect_cflags lib o' = .ok (" " ++ s))
    ∧ (o'.stdout = none → collect_cflags lib o' = .ok "") := by
  have hj := joinDeps_ne_empty a.depends ha
  have hj' := joinDeps_ne_empty lib.deps hl
  have hz : ¬(o.returncode ≠ 0) := by rw [hrc]; exact fun hc => hc rfl
  have hz' : ¬(o'.returncode ≠ 0) := by rw [hrc']; exact fun hc => hc rfl
  refine ⟨?_, ?_, ?_, ?_⟩
  · intro s hs
    rw [get_cflags]
    rw [if_neg hj, if_neg hz, hs]
  · intro hs
    rw [get_cflags]
    rw [if_neg hj, if_neg hz, hs]
  · intro s hs
    rw [collect_cflags]
    rw [if_neg hj', if_neg hz', hs]
    rfl
  · intro hs
    rw [collect_cflags]
    rw [if_neg hj', if_neg hz', hs]

theorem c1_amended_cflags_resolution_witness :
    get_cflags ⟨"x", ["liba"], "/usr/bin/", [], "", "-DX", ""⟩ ⟨0, some "-IA"⟩
      = .ok ("-DX" ++ " " ++ "-IA") :=
  (c1_amended_cflags_resolution
    ⟨"x", ["liba"], "/usr/bin/", [], "", "-DX", ""⟩
    ⟨"libz", "", "1.0.0", ["liba"], [], "", true⟩
    ⟨0, some "-IA"⟩ ⟨0, some "-IA"⟩
    (by decide) (by decide) rfl rfl).1 "-IA" rfl

/-! ## Claim C2 -/

/-- C2: the comma-list fields of `app.py` (`DEPENDS`, `SYMLINKS`) and
`DEPENDS_ON` of `lib.py` parse as the claim states, but
`DEPENDS_ON_PRIV` does not: its processing block operates on the
`DEPENDS_ON` variable `d` instead of `dp`, so with an empty
`DEPENDS_ON` value it yields `[""]` (splitting `d`'s empty string)
instead of the field's own items, and with a non-empty `DEPENDS_ON`
value it raises `AttributeError` (calling `.replace` on the list
`d`). -/
theorem c2_deps_priv_copy_paste_bug :
    (process_file ["NAME = x", "DEPENDS = a, b,c"] (fun _ => true)).map
        (fun a => a.depends) = .ok ["a", "b", "c"]
    ∧ (process_file ["NAME = x", "SYMLINKS = /bin/sh"] (fun _ => true)).map
        (fun a => a.symlinks) = .ok ["/bin/sh"]
    ∧ (process_file ["NAME = x"] (fun _ => true)).map
        (fun a => a.depends) = .ok []
    ∧ (create_library_from_info_file ["NAME = foo", "DEPENDS_ON = liba, libb"]).map
        (fun l => l.deps) = .ok ["liba", "libb"]
    ∧ create_library_from_info_file
        ["NAME = foo", "DEPENDS_ON =", "DEPENDS_ON_PRIV = liba,libb"]
        = .ok ⟨"libfoo", "", "1.0.0", [], [""], "", true⟩
    ∧ ([""] : List String) ≠ ["liba", "libb"]
    ∧ create_library_from_info_file ["NAME = foo", "DEPENDS_ON_PRIV = liba,libb"]
        = .error "AttributeError: list object has no attribute replace" :=
  ⟨rfl, rfl, rfl, rfl, rfl, by decide, rfl⟩

/-! ## Claim C5 -/

/-- The library of the claim's scenario: descriptor name `libfoo`,
public dependency list `["libbar"]`. -/
def c5Lib : Library := ⟨"libfoo", "", "1.0.0", ["libbar"], [], "", true⟩

/-- An external-tool oracle that resolves the dependency name `libbar`
and the stripped name `bar` to distinguishable flag texts. -/
def c5Oracle : String → Option String := fun s =>
  if s = "libbar" then some "-lxbar"
  else if s = "bar" then some "-lybar"
  else none

/-- The `.pc` text `genpc.py` renders for `c5Lib` under `c5Oracle`. -/
def c5Data : String :=
  "prefix=P\nexec_prefix=$\x7bprefix\x7d\nlibdir=P/lib\nincludedir=P/include\n\nName: foo\nRequires:\nRequires.private:\nVersion: 1.0.0\nLibs: -L$\x7blibdir\x7d -lfoo -lxbar \nLibs.private: \nCflags: -I$\x7bincludedir\x7d \n"

set_option maxRecDepth 8192 in
/-- C5 counterexample: for the descriptor naming the library `libfoo`
with public dependency `["libbar"]`, the emitted data never contains
the external tool's flags for the name `bar` (`-lybar` under
`c5Oracle`); the dependency is queried as `libbar`, whose flags
(`-lxbar`) follow `-lfoo`.  The claim's "resolved linker flags for the
dependency name bar" is therefore false. -/
theorem c5_counterexample_dep_queried_unstripped :
    create_library_from_info_file ["NAME = libfoo", "DEPENDS_ON = libbar"] = .ok c5Lib
    ∧ genpc_render c5Lib "P" c5Oracle = some c5Data
    ∧ pyContains c5Data "-lybar" = false
    ∧ pyContains c5Data "-lfoo -lxbar" = true :=
  ⟨rfl, rfl, rfl, rfl⟩

set_option maxRecDepth 8192 in
/-- C5 amended: the `Name:` line reads `foo` (prefix stripped from the
library's own name), and the `Libs:` line contains `-lfoo` followed by
the external tool's resolved flags for the dependency name `libbar` —
the `lib` prefix is not stripped from dependency names before querying
(for every oracle, the single dependency `libbar` is resolved by
querying exactly `"libbar"`). -/
theorem c5_amended_libs_line_uses_libbar :
    (∀ pc : String → Option String,
      resolveDeps ["libbar"] pc
        = Option.map (fun out => pyStrip out ++ " ") (pc "libbar"))
    ∧ create_library_from_info_file ["NAME = libfoo", "DEPENDS_ON = libbar"] = .ok c5Lib
    ∧ genpc_render c5Lib "P" c5Oracle = some c5Data
    ∧ pyContains c5Data "Name: foo\n" = true
    ∧ pyContains c5Data "-lfoo -lxbar " = true := by
  refine ⟨?_, rfl, rfl, rfl, rfl⟩
  intro pc
  cases hp : pc "libbar" with
  | none => simp [resolveDeps, hp]
  | some out => simp [resolveDeps, hp]

/-! ## Claim C4 -/

theorem resolveDeps_eq_none_iff (deps : List String) (pc : String → Option String) :
    resolveDeps deps pc = none ↔ ∃ i ∈ deps, pc i = none := by
  induction deps with
  | nil => simp [resolveDeps]
  | cons i rest ih =>
    cases hp : pc i with
    | none =>
      simp only [resolveDeps, hp]
      exact ⟨fun _ => ⟨i, by simp, hp⟩, fun _ => trivial⟩
    | some out =>
      cases hr : resolveDeps rest pc with
      | none =>
        simp only [resolveDeps, hp, hr]
        refine ⟨fun _ => ?_, fun _ => trivial⟩
        obtain ⟨j, hj, hjn⟩ := ih.mp hr
        exact ⟨j, by simp [hj], hjn⟩
      | some tail =>
        simp only [resolveDeps, hp, hr]
        constructor
        · intro h
          cases h
        · rintro ⟨j, hj, hjn⟩
          rcases List.mem_cons.mp hj with rfl | hj'
          · rw [hp] at hjn
            cases hjn
          · have hx := ih.mpr ⟨j, hj', hjn⟩
            rw [hr] at hx
            cases hx

theorem genpc_render_eq_none_iff (l : Library) (pre : String)
    (pc : String → Option String) :
    genpc_render l pre pc = none ↔ resolveDeps l.deps pc = none := by
  rw [genpc_render]
  cases hr : resolveDeps l.deps pc <;> simp [hr]

/-- C4 counterexample: with a pre-existing `.pc` file containing
`OLD CONTENT` and an external tool that fails on the (sole public)
dependency, the run leaves the destination file empty — the prior
content is not preserved, contradicting the claim that the file's
content is not modified on failure. -/
theorem c4_counterexample_prior_content_clobbered :
    genpc_run ⟨"libfoo", "", "1.0.0", ["libbar"], [], "", true⟩ "P"
      (fun _ => none) "OLD CONTENT" = ""
    ∧ "" ≠ "OLD CONTENT" :=
  ⟨rfl, by decide⟩

/-- C4 amended: if the external metadata tool fails for any public
dependency, the whole emission fails fatally and the rendered data is
never written — but the destination file was already truncated when it
was opened, so its final content is empty (a pre-existing file is
clobbered rather than preserved); when every public dependency
resolves, the rendered data is written. -/
theorem c4_amended_failure_truncates (l : Library) (pre prior : String)
    (pc : String → Option String) :
    ((∃ i ∈ l.deps, pc i = none) → genpc_run l pre pc prior = "")
    ∧ ((∀ i ∈ l.deps, pc i ≠ none) →
        ∃ data, genpc_render l pre pc = some data
          ∧ genpc_run l pre pc prior = data) := by
  constructor
  · intro h
    have hn : genpc_render l pre pc = none :=
      (genpc_render_eq_none_iff l pre pc).mpr ((resolveDeps_eq_none_iff _ _).mpr h)
    rw [genpc_run, hn]
  · intro h
    cases hd : genpc_render l pre pc with
    | none =>
      exfalso
      have hx := (genpc_render_eq_none_iff l pre pc).mp hd
      obtain ⟨i, hi, hin⟩ := (resolveDeps_eq_none_iff _ _).mp hx
      exact h i hi hin
    | some data =>
      refine ⟨data, rfl, ?_⟩
      rw [genpc_run, hd]

theorem c4_amended_failure_truncates_witness :
    genpc_run ⟨"libfoo", "", "1.0.0", ["libbar"], [], "", true⟩ "P"
      (fun _ => none) "OLD CONTENT" = "" :=
  (c4_amended_failure_truncates ⟨"libfoo", "", "1.0.0", ["libbar"], [], "", true⟩
    "P" "OLD CONTENT" (fun _ => none)).1 ⟨"libbar", by decide, rfl⟩

/-! ## Claim C10 -/

/-- C10: for every successfully parsed app descriptor, whether
`INSTALL_DIR` was declared or defaulted, the constructed `App`'s
`install_dir` ends with the path separator `/` (its last character,
Python `s[-1:]`, is `"/"`). -/
theorem c10_install_dir_ends_with_sep (lines : List String)
    (sysroot_has : String → Bool) (a : App)
    (h : process_file lines sysroot_has = .ok a) :
    pyTakeLast1 a.install_dir = "/" := by
  unfold process_file at h
  simp only [bind, Except.bind, pure, Except.pure, throw, throwThe,
    MonadExceptOf.throw] at h
  repeat' split at h
  any_goals cases h
  all_goals first
    | exact pyTakeLast1_append_slash _
    | exact not_not.mp (by assumption)

theorem c10_install_dir_ends_with_sep_witness :
    pyTakeLast1 (⟨"x", [], "/usr/bin/", [], "", "", ""⟩ : App).install_dir = "/" :=
  c10_install_dir_ends_with_sep ["NAME = x"] (fun _ => true)
    ⟨"x", [], "/usr/bin/", [], "", "", ""⟩ rfl

/-! ## Claim C7 -/

theorem mem_of_contains {l : List String} {a : String} (h : l.contains a = true) :
    a ∈ l := by
  simpa using h

theorem contains_of_mem {l : List String} {a : String} (h : a ∈ l) :
    l.contains a = true := by
  simpa using h

/-- In this model the `try` body only ever fails with `FileExistsError`,
which the `except` clause swallows, so every entry is reported as
success with the filesystem as it stood at the outcome. -/
theorem symlink_entry_eq_ok (fs : List String) (p : String) :
    symlink_entry fs p = .ok (symlink_entry_raw fs p).1 := by
  unfold symlink_entry
  by_cases h : ((if fs.contains (dirname p) then fs else dirname p :: fs)).contains p
  · have hr : symlink_entry_raw fs p
        = ((if fs.contains (dirname p) then fs else dirname p :: fs),
            some .fileExists) := by
      simp only [symlink_entry_raw]
      rw [if_pos h]
    rw [hr]
  · have hr : symlink_entry_raw fs p
        = (p :: (if fs.contains (dirname p) then fs else dirname p :: fs), none) := by
      simp only [symlink_entry_raw]
      rw [if_neg h]
    rw [hr]

theorem symlink_entry_raw_fst (fs : List String) (p : String) :
    (symlink_entry_raw fs p).1 =
      if ((if fs.contains (dirname p) then fs else dirname p :: fs)).contains p
      then (if fs.contains (dirname p) then fs else dirname p :: fs)
      else p :: (if fs.contains (dirname p) then fs else dirname p :: fs) := by
  simp only [symlink_entry_raw]
  split <;> (split <;> rfl)

theorem mem_symlink_entry_raw_self (fs : List String) (p : String) :
    p ∈ (symlink_entry_raw fs p).1 := by
  rw [symlink_entry_raw_fst]
  by_cases h2 : ((if fs.contains (dirname p) then fs else dirname p :: fs)).contains p
  · rw [if_pos h2]
    exact mem_of_contains h2
  · rw [if_neg h2]
    exact List.mem_cons_self _ _

theorem mem_symlink_entry_raw_dir (fs : List String) (p : String) :
    dirname p ∈ (symlink_entry_raw fs p).1 := by
  have hbase : dirname p ∈ (if fs.contains (dirname p) then fs else dirname p :: fs) := by
    by_cases h1 : fs.contains (dirname p)
    · rw [if_pos h1]
      exact mem_of_contains h1
    · rw [if_neg h1]
      exact List.mem_cons_self _ _
  rw [symlink_entry_raw_fst]
  by_cases h2 : ((if fs.contains (dirname p) then fs else dirname p :: fs)).contains p
  · rw [if_pos h2]
    exact hbase
  · rw [if_neg h2]
    exact List.mem_cons_of_mem _ hbase

theorem mem_symlink_entry_raw_mono (fs : List String) (p x : String) (h : x ∈ fs) :
    x ∈ (symlink_entry_raw fs p).1 := by
  have hbase : x ∈ (if fs.contains (dirname p) then fs else dirname p :: fs) := by
    by_cases h1 : fs.contains (dirname p)
    · rw [if_pos h1]
      exact h
    · rw [if_neg h1]
      exact List.mem_cons_of_mem _ h
  rw [symlink_entry_raw_fst]
  by_cases h2 : ((if fs.contains (dirname p) then fs else dirname p :: fs)).contains p
  · rw [if_pos h2]
    exact hbase
  · rw [if_neg h2]
    exact List.mem_cons_of_mem _ hbase

theorem symlink_entry_raw_stable (fs : List String) (p : String)
    (h1 : dirname p ∈ fs) (h2 : p ∈ fs) :
    (symlink_entry_raw fs p).1 = fs := by
  rw [symlink_entry_raw_fst, if_pos (contains_of_mem h1),
    if_pos (contains_of_mem h2)]

/-- The pure filesystem state left by the whole `--create-symlinks`
loop. -/
def run_symlinks (fs : List String) (path : String) (syms : List String) :
    List String :=
  syms.foldl (fun st sym => (symlink_entry_raw st (path ++ sym)).1) fs

theorem run_symlinks_cons (fs : List String) (path s : String) (ss : List String) :
    run_symlinks fs path (s :: ss)
      = run_symlinks ((symlink_entry_raw fs (path ++ s)).1) path ss := rfl

theorem create_symlinks_eq (fs : List String) (path : String) (syms : List String) :
    create_symlinks fs path syms = .ok (run_symlinks fs path syms) := by
  induction syms generalizing fs with
  | nil => rfl
  | cons s ss ih =>
    rw [create_symlinks, List.foldlM_cons, symlink_entry_eq_ok]
    simp only [bind, Except.bind]
    exact ih _

theorem run_symlinks_mono (fs : List String) (path : String) (syms : List String)
    (x : String) (h : x ∈ fs) : x ∈ run_symlinks fs path syms := by
  induction syms generalizing fs with
  | nil => exact h
  | cons s ss ih =>
    rw [run_symlinks_cons]
    exact ih _ (mem_symlink_entry_raw_mono _ _ _ h)

theorem run_symlinks_covers (fs : List String) (path : String) (syms : List String) :
    ∀ sym ∈ syms, (path ++ sym) ∈ run_symlinks fs path syms
      ∧ dirname (path ++ sym) ∈ run_symlinks fs path syms := by
  induction syms generalizing fs with
  | nil => intro sym hm; cases hm
  | cons s ss ih =>
    intro sym hm
    rcases List.mem_cons.mp hm with rfl | h'
    · rw [run_symlinks_cons]
      exact ⟨run_symlinks_mono _ _ _ _ (mem_symlink_entry_raw_self fs _),
        run_symlinks_mono _ _ _ _ (mem_symlink_entry_raw_dir fs _)⟩
    · rw [run_symlinks_cons]
      exact ih _ sym h'

theorem run_symlinks_stable (fs : List String) (path : String) (syms : List String)
    (h : ∀ sym ∈ syms, (path ++ sym) ∈ fs ∧ dirname (path ++ sym) ∈ fs) :
    run_symlinks fs path syms = fs := by
  induction syms with
  | nil => rfl
  | cons s ss ih =>
    rw [run_symlinks_cons]
    have hs := h s (List.mem_cons_self _ _)
    rw [symlink_entry_raw_stable fs _ hs.2 hs.1]
    exact ih (fun sym hm => h sym (List.mem_cons_of_mem _ hm))

/-- C7: a pre-existing filesystem object at the target path is treated
as success (the `FileExistsError` raised by `os.symlink` is swallowed),
and running the whole symlink-creation loop a second time against the
state left by the first run succeeds and changes nothing. -/
theorem c7_symlink_creation_idempotent :
    (∀ (fs : List String) (p : String), fs.contains p = true →
        symlink_entry fs p = .ok (symlink_entry_raw fs p).1)
    ∧ (∀ (fs : List String) (path : String) (syms : List String)
        (fs₁ : List String),
        create_symlinks fs path syms = .ok fs₁ →
        create_symlinks fs₁ path syms = .ok fs₁) := by
  constructor
  · intro fs p _
    exact symlink_entry_eq_ok fs p
  · intro fs path syms fs₁ h
    rw [create_symlinks_eq, Except.ok.injEq] at h
    subst h
    rw [create_symlinks_eq]
    rw [run_symlinks_stable _ _ _ (run_symlinks_covers fs path syms)]

theorem c7_symlink_creation_idempotent_witness :
    symlink_entry ["/sr/bin/sh"] "/sr/bin/sh"
        = .ok (symlink_entry_raw ["/sr/bin/sh"] "/sr/bin/sh").1
    ∧ create_symlinks ["/sr/bin/sh", "/sr/bin"] "/sr" ["/bin/sh"]
        = .ok ["/sr/bin/sh", "/sr/bin"] :=
  ⟨c7_symlink_creation_idempotent.1 ["/sr/bin/sh"] "/sr/bin/sh" rfl,
    c7_symlink_creation_idempotent.2 ["/sr/bin"] "/sr" ["/bin/sh"]
      ["/sr/bin/sh", "/sr/bin"] rfl⟩

/-! ## Claim C6 -/

theorem string_mk_data (s : String) : String.mk s.data = s := by
  cases s
  rfl

theorem pyIsDigitL_iff (l : List Char) :
    pyIsDigitL l = true ↔ l ≠ [] ∧ ∀ c ∈ l, c.isDigit := by
  simp [pyIsDigitL, List.isEmpty_iff]

theorem version_lookup (v : String) (hsp : ' ' ∉ v.data) (heq : '=' ∉ v.data)
    (hq : '"' ∉ v.data) :
    look_or_substitute ["NAME = foo", "VERSION=" ++ v] "VERSION"
      (some "1.0.0") true false = .ok v := by
  have hfind : List.find? (fun line => pyStartsWith line "VERSION")
      ["NAME = foo", "VERSION=" ++ v] = some ("VERSION=" ++ v) := rfl
  have hnos : ∀ c ∈ (("VERSION=".data : List Char) ++ v.data), c ≠ ' ' := by
    intro c hc
    rcases List.mem_append.mp hc with h1 | h2
    · have hall : ∀ c ∈ (("VERSION=".data : List Char)), c ≠ ' ' := by decide
      exact hall c h1
    · intro he
      subst he
      exact hsp h2
  have hshape : (("VERSION=".data : List Char) ++ v.data)
      = "VERSION".data ++ ('=' :: v.data) := rfl
  have hsplit : splitOnChar '=' (replaceSpEq ("VERSION=" ++ v).data)
      = ["VERSION".data, v.data] := by
    rw [String.data_append, replaceSpEq_no_space _ hnos, hshape,
      splitOnChar_append_sep _ _ _ (by decide),
      splitOnChar_no_sep _ _ (by intro c hc he; subst he; exact heq hc)]
  have hp : (splitOnChar '=' (replaceSpEq ("VERSION=" ++ v).data)).get? 1
      = some v.data := by
    rw [hsplit]
    rfl
  have hc1 : (v.data.contains ' ') = false := by
    simpa using hsp
  have hc2 : (v.data.contains '"') = false := by
    simpa using hq
  unfold look_or_substitute
  rw [hfind]
  show preprocess ("VERSION=" ++ v) true false = .ok v
  rw [preprocess_parts _ _ _ _ hp, hc1, hc2]
  simp [string_mk_data]

theorem create_library_version_core (v : String) (hsp : ' ' ∉ v.data)
    (heq : '=' ∉ v.data) (hq : '"' ∉ v.data) :
    create_library_from_info_file ["NAME = foo", "VERSION=" ++ v]
      = (if (version_parts v).length ≠ 3 then
          .error "AssertionError: VERSION must have the format X.X.X"
        else if ((version_parts v).filter pyIsDigitL).length ≠ 3 then
          .error "AssertionError: All components of VERSION must be number"
        else .ok ⟨"libfoo", "", v, [], [], "", true⟩) := by
  unfold create_library_from_info_file
  rw [version_lookup v hsp heq hq]
  rfl

/-- C6: library-descriptor parsing accepts a `VERSION` value exactly
when it consists of three dot-separated components, each a non-empty
all-digit (non-negative integer) string, and otherwise fails with the
version assertion; in particular `1.0`, `1.0.a` and `1.0.0.0` are
rejected while `2.4.1` is accepted.  (Stated for values free of the
space, `=` and quote characters, which the parser's line format and
its `no_spaces` validation handle separately.) -/
theorem c6_version_validation :
    (∀ v : String, ' ' ∉ v.data → '=' ∉ v.data → '"' ∉ v.data →
      ((∃ lib, create_library_from_info_file ["NAME = foo", "VERSION=" ++ v]
          = .ok lib)
        ↔ ((version_parts v).length = 3
            ∧ ∀ p ∈ version_parts v, p ≠ [] ∧ ∀ c ∈ p, c.isDigit)))
    ∧ (create_library_from_info_file ["NAME = foo", "VERSION = 1.0"]).isOk = false
    ∧ (create_library_from_info_file ["NAME = foo", "VERSION = 1.0.a"]).isOk = false
    ∧ (create_library_from_info_file ["NAME = foo", "VERSION = 1.0.0.0"]).isOk = false
    ∧ (create_library_from_info_file ["NAME = foo", "VERSION = 2.4.1"]).isOk = true := by
  refine ⟨?_, rfl, rfl, rfl, rfl⟩
  intro v hsp heq hq
  rw [create_library_version_core v hsp heq hq]
  constructor
  · rintro ⟨lib, hlib⟩
    by_cases h3 : (version_parts v).length = 3
    · rw [if_neg (not_not_intro h3)] at hlib
      by_cases h2 : ((version_parts v).filter pyIsDigitL).length = 3
      · refine ⟨h3, fun p hp => ?_⟩
        have hall : ∀ p ∈ version_parts v, pyIsDigitL p = true :=
          List.filter_length_eq_length.mp (h2.trans h3.symm)
        exact (pyIsDigitL_iff p).mp (hall p hp)
      · have h2' : ((version_parts v).filter pyIsDigitL).length ≠ 3 := h2
        rw [if_pos h2'] at hlib
        cases hlib
    · have h3' : (version_parts v).length ≠ 3 := h3
      rw [if_pos h3'] at hlib
      cases hlib
  · rintro ⟨h3, hall⟩
    have h2 : ((version_parts v).filter pyIsDigitL).length = 3 := by
      rw [← h3]
      exact List.filter_length_eq_length.mpr
        (fun p hp => (pyIsDigitL_iff p).mpr (hall p hp))
    rw [if_neg (not_not_intro h3), if_neg (not_not_intro h2)]
    exact ⟨_, rfl⟩

theorem c6_version_validation_witness :
    ∃ lib, create_library_from_info_file ["NAME = foo", "VERSION=" ++ "2.4.1"]
      = .ok lib :=
  (c6_version_validation.1 "2.4.1" (by decide) (by decide) (by decide)).mpr
    (by decide)
